import Mathlib

/-!
Shallow embedding of `pymeasure/experiment/workers.py` (class `Worker`),
the task-supervision unit of the repository.  The Worker owns a
`Procedure` (the task routine), a recorder queue, a monitor queue, an
optional ZMQ publisher, and the inherited `StoppableProcess` stop flag.

The file models the observable state touched by the Worker's methods
(`emit`, `update_status`, `shutdown`, `handle_abort`, `handle_error`,
`run`, `join`, `__init__`) as a record of queue contents, the procedure
status field and its assignment history, and counters for the externally
visible calls (`stop`, `procedure.shutdown`).  Python exceptions are
modelled explicitly: every operation returns the state reached together
with `Option PyExc`, `some e` meaning the exception `e` escapes the
operation (side effects performed before the raise are kept, as in
Python).

The code runs on Python 3: `workers.py` uses bare `super().__init__()`
and `super().join(timeout)` calls, which are Python 3 syntax.
-/

/-- Task Status values, the constants `Procedure.QUEUED`, `Procedure.RUNNING`,
`Procedure.FAILED`, `Procedure.ABORTED`, `Procedure.FINISHED` referenced by
`workers.py`. -/
inductive Status : Type
  | QUEUED
  | RUNNING
  | FAILED
  | ABORTED
  | FINISHED
deriving DecidableEq, Repr

/-- Python exception kinds relevant to `workers.py`: the two caught by
`Worker.join` (`KeyboardInterrupt`, `SystemExit`), the two caught on the
publisher path in `Worker.emit` (`NameError`, `AttributeError`), and two
representative uncaught kinds a serialization or transport layer can raise
(`TypeError` from pickling, `zmq.ZMQError` from the socket). -/
inductive PyExc : Type
  | keyboardInterrupt
  | systemExit
  | attributeError
  | nameError
  | typeError
  | zmqError
deriving DecidableEq, Repr

/-- The exception kinds swallowed by the `except (NameError, AttributeError)`
clause in `Worker.emit` (workers.py lines 97-98). -/
def PyExc.caughtByEmit : PyExc → Bool
  | PyExc.nameError => true
  | PyExc.attributeError => true
  | _ => false

/-- Payloads passed to `Worker.emit`: status values (from `update_status`),
progress percentages (`0.` and `100.` in the source; only these two float
values occur, modelled as naturals), traceback text (from `handle_error`),
and opaque result records produced by the routine. -/
inductive Record : Type
  | statusVal (s : Status)
  | progressVal (pct : Nat)
  | errorText (msg : String)
  | data (n : Nat)
deriving DecidableEq, Repr

/-- Items on the Worker's `monitor_queue`: `(topic, record)` pairs put by
`emit`, and the closing marker `None` put by `shutdown`. -/
inductive MonitorItem : Type
  | pair (topic : String) (r : Record)
  | close
deriving DecidableEq, Repr

/-- Observable state of a constructed Worker.

* `procStatus` — the `self.procedure.status` field.
* `statusTrace` — every value assigned to `procedure.status`, in order,
  starting with the `QUEUED` assigned by `__init__`.
* `recorderQueue` — records forwarded to the Recorder's results channel
  via `self.recorder.handle(record)`.  Modelled from the spec: the
  Recorder (`listeners.py`, not under src/) receives each handled record
  on its results Event Channel.
* `recorderSentinel` — whether `self.recorder.enqueue_sentinel()` ran.
  Modelled from the spec: the Sentinel signals end of stream.
* `monitorQueue` — contents of `self.monitor_queue`.
* `published` — `(topic, record)` pairs successfully broadcast by the
  publisher path of `emit`.
* `shouldStop` — the `StoppableProcess` stop flag.  Modelled from the
  spec: `stop()` sets a shared boolean flag, `should_stop()` reads it
  (`process.py` is not under src/).
* `stopCalls` — number of `stop()` invocations.
* `teardownCalls` — number of `self.procedure.shutdown()` invocations
  (the routine's teardown hook). -/
structure WorkerState : Type where
  procStatus : Status
  statusTrace : List Status
  recorderQueue : List Record
  recorderSentinel : Bool
  monitorQueue : List MonitorItem
  published : List (String × Record)
  shouldStop : Bool
  stopCalls : Nat
  teardownCalls : Nat
deriving DecidableEq, Repr

/-- State right after a successful `Worker.__init__`: status `QUEUED`
(workers.py line 68), empty queues, stop flag clear. -/
def initWorkerState : WorkerState where
  procStatus := Status.QUEUED
  statusTrace := [Status.QUEUED]
  recorderQueue := []
  recorderSentinel := false
  monitorQueue := []
  published := []
  shouldStop := false
  stopCalls := 0
  teardownCalls := 0

/-- Environment of a Worker: the outcome of the publisher path
`cloudpickle.dumps((topic, record))` followed by
`self.publisher.send_multipart(data)` for each event.  `none` means the
broadcast succeeds; `some e` means one of the two calls raises `e`.
`AttributeError` here also covers the configurations where `cloudpickle`
is `None` (import failed) or `self.publisher` is `None` (no port). -/
def Broadcast : Type := String → Record → Option PyExc

/-- Broadcast environment in which every publish succeeds. -/
def bcOk : Broadcast := fun _ _ => none

/-- Broadcast environment in which serialization always raises
`TypeError`, an exception kind not named in the `except` clause of
`Worker.emit`. -/
def bcTypeErr : Broadcast := fun _ _ => some PyExc.typeError

/-- Model of the attribute access `topic.decode` in `Worker.emit`
(workers.py line 101, `self.monitor_queue.put((topic.decode(), record))`).
The code runs on Python 3, where `str` has no `decode` method, so the
lookup raises `AttributeError` for every string topic. -/
def strDecode (_ : String) : Except PyExc String :=
  Except.error PyExc.attributeError

namespace Worker

/-- The `try`/`except (NameError, AttributeError)` block of `Worker.emit`
(workers.py lines 94-98): attempt the broadcast; a `NameError` or
`AttributeError` is swallowed, any other exception escapes. -/
def broadcastStep (bc : Broadcast) (topic : String) (r : Record)
    (st : WorkerState) : WorkerState × Option PyExc :=
  match bc topic r with
  | none => ({ st with published := st.published ++ [(topic, r)] }, none)
  | some e => (st, if e.caughtByEmit then none else some e)

/-- `Worker.emit(topic, record)` (workers.py lines 90-102): broadcast via
the publisher with the two-kind swallow, then route by topic — `results`
to `self.recorder.handle(record)`, `status`/`progress` to
`self.monitor_queue.put((topic.decode(), record))` (the `decode` call
raises before `put` runs), everything else nowhere. -/
def emit (bc : Broadcast) (topic : String) (r : Record)
    (st : WorkerState) : WorkerState × Option PyExc :=
  match broadcastStep bc topic r st with
  | (st1, some e) => (st1, some e)
  | (st1, none) =>
    if topic = "results" then
      ({ st1 with recorderQueue := st1.recorderQueue ++ [r] }, none)
    else if topic = "status" ∨ topic = "progress" then
      match strDecode topic with
      | Except.error e => (st1, some e)
      | Except.ok t =>
        ({ st1 with monitorQueue := st1.monitorQueue ++ [MonitorItem.pair t r] },
         none)
    else (st1, none)

/-- `Worker.update_status(status)` (workers.py lines 114-116): assign the
procedure status field, then emit a `status`-topic event with the new
value. -/
def update_status (bc : Broadcast) (s : Status)
    (st : WorkerState) : WorkerState × Option PyExc :=
  emit bc "status" (Record.statusVal s)
    { st with procStatus := s, statusTrace := st.statusTrace ++ [s] }

/-- `Worker.handle_abort()` (workers.py lines 104-106): log, then set the
status to `ABORTED` via `update_status`. -/
def handle_abort (bc : Broadcast) (st : WorkerState) :
    WorkerState × Option PyExc :=
  update_status bc Status.ABORTED st

/-- `Worker.handle_error()` (workers.py lines 108-112): log, format the
traceback, emit it as an `error`-topic event, then set the status to
`FAILED` via `update_status`. -/
def handle_error (bc : Broadcast) (tb : String) (st : WorkerState) :
    WorkerState × Option PyExc :=
  match emit bc "error" (Record.errorText tb) st with
  | (st1, some e) => (st1, some e)
  | (st1, none) => update_status bc Status.FAILED st1

/-- Modelled from the spec: `StoppableProcess.stop()` (`process.py`, not
under src/) sets the shared cancellation flag; repeated calls keep the
flag set.  `stopCalls` counts the invocations so idempotence and
exactly-once properties can be stated. -/
def stop (st : WorkerState) : WorkerState :=
  { st with shouldStop := true, stopCalls := st.stopCalls + 1 }

/-- `Worker.shutdown()` (workers.py lines 118-128): call the routine's
teardown hook `self.procedure.shutdown()`; if a stop was requested and
the status is still `RUNNING`, move to `ABORTED`; else if still
`RUNNING`, move to `FINISHED` and emit `progress = 100.`; finally enqueue
the Recorder sentinel and put the closing marker `None` on the monitor
queue.  An exception escaping `update_status` or `emit` skips the
remaining statements, as in Python. -/
def shutdown (bc : Broadcast) (st : WorkerState) :
    WorkerState × Option PyExc :=
  let st0 := { st with teardownCalls := st.teardownCalls + 1 }
  let step : WorkerState × Option PyExc :=
    if st0.shouldStop = true ∧ st0.procStatus = Status.RUNNING then
      update_status bc Status.ABORTED st0
    else if st0.procStatus = Status.RUNNING then
      match update_status bc Status.FINISHED st0 with
      | (st1, some e) => (st1, some e)
      | (st1, none) => emit bc "progress" (Record.progressVal 100) st1
    else (st0, none)
  match step with
  | (st1, some e) => (st1, some e)
  | (st1, none) =>
    ({ st1 with
        recorderSentinel := true,
        monitorQueue := st1.monitorQueue ++ [MonitorItem.close] }, none)

/-- Outcome of the routine hooks `self.procedure.startup()` then
`self.procedure.execute()` inside the `try` of `Worker.run`: return
normally, raise a cancellation signal (`KeyboardInterrupt` or
`SystemExit`), or raise any other exception, whose traceback text is
`tb`. -/
inductive RoutineOutcome : Type
  | normal
  | cancel
  | failure (tb : String)
deriving DecidableEq, Repr

/-- `Worker.run()` (workers.py lines 130-172).  The logging setup, the
Recorder thread start, the dynamic `__import__`, the hook wiring and the
guarded publisher bind (whose failures are caught by `except Exception`
and logged, workers.py lines 148-157) touch none of the modelled state.
The modelled sequence is: `update_status(RUNNING)`; `emit('progress', 0.)`;
then `try: startup(); execute()` with `except (KeyboardInterrupt,
SystemExit): handle_abort()`, `except Exception: handle_error()`,
`finally: shutdown(); stop()`.  Python semantics of the `finally` block:
an exception escaping `shutdown()` replaces any pending exception and
skips `stop()`; otherwise `stop()` runs and the pending exception (from a
handler) resumes propagation.  An exception raised before the `try`
statement propagates out of `run` without reaching `shutdown`. -/
def run (bc : Broadcast) (routine : RoutineOutcome) (st : WorkerState) :
    WorkerState × Option PyExc :=
  match update_status bc Status.RUNNING st with
  | (st1, some e) => (st1, some e)
  | (st1, none) =>
    match emit bc "progress" (Record.progressVal 0) st1 with
    | (st2, some e) => (st2, some e)
    | (st2, none) =>
      let body : WorkerState × Option PyExc :=
        match routine with
        | RoutineOutcome.normal => (st2, none)
        | RoutineOutcome.cancel => handle_abort bc st2
        | RoutineOutcome.failure tb => handle_error bc tb st2
      match shutdown bc body.1 with
      | (st3, some e) => (st3, some e)
      | (st3, none) => (stop st3, body.2)

/-- `Worker.join(timeout)` (workers.py lines 82-88).  `o1` is the outcome
of the first `super().join(timeout)` wait and `o2` that of the retry
`super().join(0)`: `none` means the wait returned, `some e` that it was
interrupted by the exception `e`.  Only `KeyboardInterrupt` and
`SystemExit` are caught, and only around the first wait; the handler
calls `stop()` once and retries a non-blocking join, which is not
guarded. -/
def join (o1 o2 : Option PyExc) (st : WorkerState) :
    WorkerState × Option PyExc :=
  match o1 with
  | none => (st, none)
  | some e =>
    if e = PyExc.keyboardInterrupt ∨ e = PyExc.systemExit then
      let st1 := stop st
      match o2 with
      | none => (st1, none)
      | some e2 => (st1, some e2)
    else (st, some e)

end Worker

/-- Errors a `Worker.__init__` call can raise: the spec's
`ConstructionError` is the `ValueError("Invalid Results object during
Worker construction")` of workers.py line 63, its `ValidationError` is
whatever `self.procedure.check_parameters()` raises at line 67. -/
inductive InitError : Type
  | constructionError
  | validationError
deriving DecidableEq, Repr

/-- Observable effects of one `Worker.__init__` call: how many times the
parameter-validation hook `check_parameters` ran, whether
`procedure.status` was assigned `QUEUED`, whether any execution unit was
started (`__init__` contains no `start()` call; the caller starts the
process separately), and which error, if any, escaped. -/
structure InitTrace : Type where
  checkCalls : Nat
  queuedSet : Bool
  started : Bool
  failure : Option InitError
deriving DecidableEq, Repr

namespace Worker

/-- `Worker.__init__(results, ...)` (workers.py lines 56-80), in source
order: `isinstance(results, Results)` check raising `ValueError`
otherwise; extraction of the procedure from the sink;
`self.procedure.check_parameters()`, whose exception propagates;
assignment `self.procedure.status = Procedure.QUEUED`; allocation of the
queues.  `validSink` models the isinstance test, `checkFails` whether the
validation hook raises.  No branch starts an execution unit. -/
def init (validSink : Bool) (checkFails : Bool) : InitTrace :=
  if validSink = false then
    { checkCalls := 0, queuedSet := false, started := false,
      failure := some InitError.constructionError }
  else if checkFails = true then
    { checkCalls := 1, queuedSet := false, started := false,
      failure := some InitError.validationError }
  else
    { checkCalls := 1, queuedSet := true, started := false,
      failure := none }

end Worker

/-- A Worker state in which `run` has just set the status to `RUNNING`:
the state `shutdown`, `handle_abort` and `handle_error` are specified to
act on. -/
def runningState : WorkerState :=
  { initWorkerState with
      procStatus := Status.RUNNING,
      statusTrace := [Status.QUEUED, Status.RUNNING] }

/-- C1: the claim says every run visits the status sequence `QUEUED`,
`RUNNING`, then exactly one terminal value of `{FINISHED, ABORTED,
FAILED}`.  On the code, for every routine outcome (normal return,
cancellation, failure), `run` raises `AttributeError` inside
`update_status(RUNNING)` — `'status'.decode()` on a Python 3 `str` — so
the assignment trace is exactly `[QUEUED, RUNNING]` and no terminal value
is ever entered. -/
theorem run_status_never_reaches_terminal :
    (Worker.run bcOk Worker.RoutineOutcome.normal initWorkerState).1.statusTrace
        = [Status.QUEUED, Status.RUNNING] ∧
    (Worker.run bcOk Worker.RoutineOutcome.normal initWorkerState).2
        = some PyExc.attributeError ∧
    (Worker.run bcOk Worker.RoutineOutcome.normal initWorkerState).1.procStatus
        = Status.RUNNING ∧
    (Worker.run bcOk Worker.RoutineOutcome.cancel initWorkerState).1.statusTrace
        = [Status.QUEUED, Status.RUNNING] ∧
    (Worker.run bcOk (Worker.RoutineOutcome.failure "boom")
        initWorkerState).1.statusTrace
        = [Status.QUEUED, Status.RUNNING] := by
  decide

/-- C2: the claim says `emit('results', r)` forwards `r` to the Recorder
channel (which holds) and `emit(t, r)` for `t ∈ {status, progress}` puts
`(t, r)` on the monitor channel.  On the code the monitor half fails:
`topic.decode()` raises `AttributeError` before `monitor_queue.put` runs,
so the monitor queue stays empty and the exception escapes `emit`. -/
theorem emit_status_progress_monitor_unreached :
    Worker.emit bcOk "results" (Record.data 7) initWorkerState
      = ({ initWorkerState with
            published := [("results", Record.data 7)],
            recorderQueue := [Record.data 7] }, none) ∧
    (Worker.emit bcOk "status" (Record.statusVal Status.RUNNING)
        initWorkerState).1.monitorQueue = [] ∧
    (Worker.emit bcOk "status" (Record.statusVal Status.RUNNING)
        initWorkerState).2 = some PyExc.attributeError ∧
    (Worker.emit bcOk "progress" (Record.progressVal 0)
        initWorkerState).1.monitorQueue = [] ∧
    (Worker.emit bcOk "progress" (Record.progressVal 0)
        initWorkerState).2 = some PyExc.attributeError := by
  decide

/-- C3, counterexample: a serialization failure of a kind not named in
the `except (NameError, AttributeError)` clause — here `TypeError` —
propagates out of `emit`, and on a `results` event it prevents delivery
to the Recorder channel, contradicting the claim that any failure on the
broadcast path is swallowed. -/
theorem emit_uncaught_broadcast_failure_propagates :
    Worker.emit bcTypeErr "log" (Record.data 0) initWorkerState
      = (initWorkerState, some PyExc.typeError) ∧
    Worker.emit bcTypeErr "results" (Record.data 0) initWorkerState
      = (initWorkerState, some PyExc.typeError) := by
  decide

/-- C3, amended: a `NameError` or `AttributeError` raised on the
Publisher broadcast path is swallowed — it never escapes `emit` and never
prevents delivery of a `results` event to the Recorder channel; failures
of other kinds propagate (see the counterexample). -/
theorem emit_swallows_name_attribute_errors (e : PyExc) (r : Record)
    (st : WorkerState) (h : e.caughtByEmit = true) :
    Worker.emit (fun _ _ => some e) "results" r st
      = ({ st with recorderQueue := st.recorderQueue ++ [r] }, none) ∧
    Worker.emit (fun _ _ => some e) "log" r st = (st, none) := by
  cases e <;>
    first
      | exact ⟨rfl, rfl⟩
      | simp [PyExc.caughtByEmit] at h

/-- Witness for the amended C3 at a concrete swallowed failure. -/
theorem emit_swallows_name_attribute_errors_w :
    Worker.emit (fun _ _ => some PyExc.nameError) "results" (Record.data 1)
        initWorkerState
      = ({ initWorkerState with recorderQueue := [Record.data 1] }, none) ∧
    Worker.emit (fun _ _ => some PyExc.nameError) "log" (Record.data 1)
        initWorkerState
      = (initWorkerState, none) :=
  emit_swallows_name_attribute_errors PyExc.nameError (Record.data 1)
    initWorkerState rfl

/-- C4: the claim says `shutdown()` is always invoked and always calls
the teardown hook, enqueues the Sentinel and puts the closing marker.  On
the code, `run` raises before its `try`/`finally` (in
`update_status(RUNNING)`), so `shutdown` is never invoked — the teardown
count stays `0` and no sentinel or marker appears; and `shutdown` entered
with the status still `RUNNING` itself raises inside `update_status`
before the sentinel and marker statements. -/
theorem run_skips_shutdown_and_sentinel :
    (Worker.run bcOk Worker.RoutineOutcome.normal initWorkerState).1.teardownCalls
        = 0 ∧
    (Worker.run bcOk Worker.RoutineOutcome.normal initWorkerState).1.recorderSentinel
        = false ∧
    (Worker.run bcOk Worker.RoutineOutcome.normal initWorkerState).1.monitorQueue
        = [] ∧
    (Worker.run bcOk Worker.RoutineOutcome.normal initWorkerState).2
        = some PyExc.attributeError ∧
    (Worker.shutdown bcOk runningState).1.teardownCalls = 1 ∧
    (Worker.shutdown bcOk runningState).1.recorderSentinel = false ∧
    (Worker.shutdown bcOk runningState).1.monitorQueue = [] ∧
    (Worker.shutdown bcOk runningState).2 = some PyExc.attributeError := by
  decide

/-- C5: whenever `shutdown` runs with a stop requested and the status
still `RUNNING`, the status field becomes `ABORTED` (entered once, at the
end of the assignment trace), never `FINISHED`, and no `progress = 100`
event is emitted: the recorder and monitor queues are unchanged and the
publisher sees at most the `status` broadcast, for every broadcast
environment. -/
theorem shutdown_stop_requested_reaches_aborted (bc : Broadcast)
    (st : WorkerState) (hstop : st.shouldStop = true)
    (hrun : st.procStatus = Status.RUNNING) :
    (Worker.shutdown bc st).1.procStatus = Status.ABORTED ∧
    (Worker.shutdown bc st).1.procStatus ≠ Status.FINISHED ∧
    (Worker.shutdown bc st).1.statusTrace
        = st.statusTrace ++ [Status.ABORTED] ∧
    (Worker.shutdown bc st).1.recorderQueue = st.recorderQueue ∧
    (Worker.shutdown bc st).1.monitorQueue = st.monitorQueue ∧
    ((Worker.shutdown bc st).1.published = st.published ∨
      (Worker.shutdown bc st).1.published
        = st.published ++ [("status", Record.statusVal Status.ABORTED)]) := by
  rcases h : bc "status" (Record.statusVal Status.ABORTED) with _ | e
  · simp [Worker.shutdown, Worker.update_status, Worker.emit,
      Worker.broadcastStep, strDecode, hstop, hrun, h]
  · by_cases hc : e.caughtByEmit = true <;>
      simp [Worker.shutdown, Worker.update_status, Worker.emit,
        Worker.broadcastStep, strDecode, hstop, hrun, h, hc]

/-- Witness for C5 at a concrete stopped running state. -/
theorem shutdown_stop_requested_reaches_aborted_w :
    (Worker.shutdown bcOk { runningState with shouldStop := true }).1.procStatus
        = Status.ABORTED ∧
    (Worker.shutdown bcOk { runningState with shouldStop := true }).1.procStatus
        ≠ Status.FINISHED ∧
    (Worker.shutdown bcOk { runningState with shouldStop := true }).1.statusTrace
        = { runningState with shouldStop := true }.statusTrace ++ [Status.ABORTED] ∧
    (Worker.shutdown bcOk { runningState with shouldStop := true }).1.recorderQueue
        = { runningState with shouldStop := true }.recorderQueue ∧
    (Worker.shutdown bcOk { runningState with shouldStop := true }).1.monitorQueue
        = { runningState with shouldStop := true }.monitorQueue ∧
    ((Worker.shutdown bcOk { runningState with shouldStop := true }).1.published
        = { runningState with shouldStop := true }.published ∨
      (Worker.shutdown bcOk { runningState with shouldStop := true }).1.published
        = { runningState with shouldStop := true }.published
            ++ [("status", Record.statusVal Status.ABORTED)]) :=
  shutdown_stop_requested_reaches_aborted bcOk
    { runningState with shouldStop := true } rfl rfl

/-- C6: the claim says an unhandled routine failure yields exactly one
`error` event, status `FAILED`, and a Worker that does not crash and
completes its shutdown.  On the code, `handle_error` does emit the
`error` event once and set `FAILED`, but then raises `AttributeError`
from `'status'.decode()` inside `update_status(FAILED)`; moreover a full
`run` crashes in `update_status(RUNNING)` before the routine's hooks are
reached, so no `error` event is ever published during a run. -/
theorem handle_error_sets_failed_then_raises :
    (Worker.handle_error bcOk "Traceback: boom" runningState).1.procStatus
        = Status.FAILED ∧
    ((Worker.handle_error bcOk "Traceback: boom" runningState).1.published.filter
        (fun p => p.1 == "error")).length = 1 ∧
    (Worker.handle_error bcOk "Traceback: boom" runningState).2
        = some PyExc.attributeError ∧
    (Worker.run bcOk (Worker.RoutineOutcome.failure "Traceback: boom")
        initWorkerState).1.published
        = [("status", Record.statusVal Status.RUNNING)] := by
  decide

/-- C7: a sink that fails the `isinstance(results, Results)` test makes
`__init__` raise the construction error synchronously, before the
validation hook runs, and no execution unit is started — whatever the
validation hook would have done. -/
theorem init_invalid_sink_raises_construction_error :
    Worker.init false false
      = { checkCalls := 0, queuedSet := false, started := false,
          failure := some InitError.constructionError } ∧
    Worker.init false true
      = { checkCalls := 0, queuedSet := false, started := false,
          failure := some InitError.constructionError } := by
  decide

/-- C8: on a valid sink, `__init__` invokes `check_parameters` exactly
once; if it raises, the error propagates, `QUEUED` is never assigned and
no execution unit is started; if it succeeds, `QUEUED` is assigned. -/
theorem init_validation_once_before_queued :
    Worker.init true true
      = { checkCalls := 1, queuedSet := false, started := false,
          failure := some InitError.validationError } ∧
    Worker.init true false
      = { checkCalls := 1, queuedSet := true, started := false,
          failure := none } := by
  decide

/-- C9, counterexample: the retry `super().join(0)` is outside the
`except` clause, so a cancellation signal arriving during the retry
propagates to the caller — `join` is not crash-free as claimed (though
`stop()` still ran exactly once). -/
theorem join_retry_interrupt_propagates :
    Worker.join (some PyExc.keyboardInterrupt) (some PyExc.keyboardInterrupt)
        initWorkerState
      = ({ initWorkerState with shouldStop := true, stopCalls := 1 },
         some PyExc.keyboardInterrupt) := by
  decide

/-- C9, amended: when the first wait of `join` is interrupted by a
cancellation signal, `stop()` is invoked exactly once — never more,
whatever the retry does — and if the non-blocking retry is not itself
interrupted, `join` returns normally to the caller. -/
theorem join_interrupt_stops_once (st : WorkerState) (e : PyExc)
    (o2 : Option PyExc)
    (h : e = PyExc.keyboardInterrupt ∨ e = PyExc.systemExit) :
    (Worker.join (some e) o2 st).1.stopCalls = st.stopCalls + 1 ∧
    Worker.join (some e) none st
      = ({ st with shouldStop := true, stopCalls := st.stopCalls + 1 },
         none) := by
  rcases h with h | h <;> subst h <;>
    exact ⟨by cases o2 <;> rfl, rfl⟩

/-- Witness for the amended C9: a KeyboardInterrupt during the first
wait, another one during the retry. -/
theorem join_interrupt_stops_once_w :
    (Worker.join (some PyExc.keyboardInterrupt)
        (some PyExc.keyboardInterrupt) initWorkerState).1.stopCalls
      = initWorkerState.stopCalls + 1 ∧
    Worker.join (some PyExc.keyboardInterrupt) none initWorkerState
      = ({ initWorkerState with
            shouldStop := true,
            stopCalls := initWorkerState.stopCalls + 1 }, none) :=
  join_interrupt_stops_once initWorkerState PyExc.keyboardInterrupt
    (some PyExc.keyboardInterrupt) (Or.inl rfl)

/-- C10: `emit` on any topic other than `results`, `status` and
`progress` — in particular `error` and `log` — leaves the Recorder
channel, the sentinel flag and the monitor queue unchanged, for every
broadcast environment; the event reaches at most the Publisher. -/
theorem emit_other_topics_leave_channels (bc : Broadcast) (topic : String)
    (r : Record) (st : WorkerState) (h1 : topic ≠ "results")
    (h2 : topic ≠ "status") (h3 : topic ≠ "progress") :
    (Worker.emit bc topic r st).1.recorderQueue = st.recorderQueue ∧
    (Worker.emit bc topic r st).1.recorderSentinel = st.recorderSentinel ∧
    (Worker.emit bc topic r st).1.monitorQueue = st.monitorQueue ∧
    ((Worker.emit bc topic r st).1.published = st.published ∨
      (Worker.emit bc topic r st).1.published
        = st.published ++ [(topic, r)]) := by
  rcases h : bc topic r with _ | e
  · simp [Worker.emit, Worker.broadcastStep, h, h1, h2, h3]
  · by_cases hc : e.caughtByEmit = true <;>
      simp [Worker.emit, Worker.broadcastStep, h, hc, h1, h2, h3]

/-- Witness for C10 at the `error` topic, the failure-report path of
`handle_error`. -/
theorem emit_other_topics_leave_channels_w :
    (Worker.emit bcOk "error" (Record.errorText "boom")
        initWorkerState).1.recorderQueue = initWorkerState.recorderQueue ∧
    (Worker.emit bcOk "error" (Record.errorText "boom")
        initWorkerState).1.recorderSentinel = initWorkerState.recorderSentinel ∧
    (Worker.emit bcOk "error" (Record.errorText "boom")
        initWorkerState).1.monitorQueue = initWorkerState.monitorQueue ∧
    ((Worker.emit bcOk "error" (Record.errorText "boom")
        initWorkerState).1.published = initWorkerState.published ∨
      (Worker.emit bcOk "error" (Record.errorText "boom")
        initWorkerState).1.published
        = initWorkerState.published ++ [("error", Record.errorText "boom")]) :=
  emit_other_topics_leave_channels bcOk "error" (Record.errorText "boom")
    initWorkerState (by decide) (by decide) (by decide)
